import Mathlib

/-!
Verification of the 24DIGI revenue calculator and forecasting engine.

This file gives a shallow embedding of the core calculation modules
(src/modules/data_manager.py, src/modules/calculator.py,
src/modules/forecaster.py, src/config/app_config.py) and settles the
frozen claims about them.  Python floats are modelled as rationals.
Python division raises ZeroDivisionError on a zero denominator, so every
division whose denominator can actually be zero in the source is modelled
as an Option-valued operation, with none standing for the raised
exception; guarded divisions (behind an explicit positivity test in the
source) stay total.
-/

/-! ## Pricing data (data_manager.py, app_config.py) -/

/-- A cost/selling price pair, one component of a tier price list
(values such as DEFAULT_PRICING['VIP']['mealsPerMonth']). -/
structure PriceEntry where
  cost : ℚ
  selling : ℚ
deriving DecidableEq

/-- The price components of one subscription tier that
`calculate_package_cost` reads.  Each component is optional, mirroring
`pricing.get(name, {})`; components the embedded operations never read
(braceletVIP, carOneMonth, cbyiOneMonth, ...) are omitted.
`digitalProfit` mirrors `pricing.get('digitalProfit', 0)`; absence is
modelled as the default value 0. -/
structure TierPricing where
  mealsPerMonth : Option PriceEntry := none
  meals3Months : Option PriceEntry := none
  deliveryPerMonth : Option PriceEntry := none
  delivery3Months : Option PriceEntry := none
  bracelet : Option PriceEntry := none
  pointsX10 : Option PriceEntry := none
  digitalProfit : ℚ := 0
deriving DecidableEq

/-- `pricing.get(name, {}).get('cost', 0)`. -/
def entryCost (o : Option PriceEntry) : ℚ := (o.map PriceEntry.cost).getD 0

/-- `pricing.get(name, {}).get('selling', 0)`. -/
def entrySelling (o : Option PriceEntry) : ℚ := (o.map PriceEntry.selling).getD 0

/-- The empty tier dictionary, what `pricing_data.get(sub_type, {})`
yields on a miss. -/
def emptyTier : TierPricing := {}

/-- The pricing_data dictionary: tier name to tier price list. -/
def PricingData := List (String × TierPricing)

/-- First-match association-list lookup, the Python dict access
`d.get(k)` (dict keys are unique, so first match is the only match). -/
def dictGet {α : Type} (l : List (String × α)) (k : String) : Option α :=
  match l with
  | [] => none
  | (k', v) :: rest => if k' = k then some v else dictGet rest k

/-- AppConfig.DEFAULT_PRICING['VIP']. -/
def vipDefaultTier : TierPricing :=
  { mealsPerMonth := some ⟨1000, 1500⟩
    meals3Months := some ⟨3000, 4500⟩
    deliveryPerMonth := some ⟨200, 200⟩
    delivery3Months := some ⟨600, 600⟩
    bracelet := some ⟨315, 800⟩
    pointsX10 := some ⟨300, 250⟩
    digitalProfit := 500 }

/-- AppConfig.DEFAULT_PRICING['Normal']. -/
def normalDefaultTier : TierPricing :=
  { mealsPerMonth := some ⟨900, 130667/100⟩
    meals3Months := some ⟨2700, 3920⟩
    deliveryPerMonth := some ⟨200, 200⟩
    delivery3Months := some ⟨600, 600⟩
    bracelet := some ⟨315, 600⟩
    pointsX10 := some ⟨50, 30⟩
    digitalProfit := 500 }

/-- AppConfig.DEFAULT_PRICING['Custom'].  The Custom tier dictionary has
no 'bracelet' and no 'digitalProfit' key (its bracelet entries are under
other names, which `calculate_package_cost` never reads). -/
def customDefaultTier : TierPricing :=
  { mealsPerMonth := some ⟨1000, 1500⟩
    meals3Months := some ⟨3000, 4500⟩
    deliveryPerMonth := some ⟨200, 200⟩
    delivery3Months := some ⟨600, 600⟩
    bracelet := none
    pointsX10 := some ⟨0, 0⟩
    digitalProfit := 0 }

/-- AppConfig.DEFAULT_PRICING. -/
def DEFAULT_PRICING : PricingData :=
  [("VIP", vipDefaultTier), ("Normal", normalDefaultTier), ("Custom", customDefaultTier)]

/-- Result record of `DataManager.calculate_package_cost`. -/
structure PackageData where
  cost : ℚ
  revenue : ℚ
  profit : ℚ
deriving DecidableEq

/-- `DataManager.calculate_package_cost(subscription_type, duration)`:
sums the duration-specific named price components, adds the flat
digitalProfit amount to revenue for non-Custom tiers, and returns
cost, revenue and profit = revenue - cost. -/
def calculate_package_cost (pricing_data : PricingData) (sub_type : String)
    (duration : ℕ) : PackageData :=
  let pricing := (dictGet pricing_data sub_type).getD emptyTier
  let package_cost :=
    if duration = 1 then
      entryCost pricing.mealsPerMonth + entryCost pricing.deliveryPerMonth +
        entryCost pricing.bracelet + entryCost pricing.pointsX10
    else
      entryCost pricing.meals3Months + entryCost pricing.delivery3Months +
        entryCost pricing.bracelet + entryCost pricing.pointsX10
  let package_revenue0 :=
    if duration = 1 then
      entrySelling pricing.mealsPerMonth + entrySelling pricing.deliveryPerMonth +
        entrySelling pricing.bracelet + entrySelling pricing.pointsX10
    else
      entrySelling pricing.meals3Months + entrySelling pricing.delivery3Months +
        entrySelling pricing.bracelet + entrySelling pricing.pointsX10
  let package_revenue :=
    if sub_type ≠ "Custom" then package_revenue0 + pricing.digitalProfit
    else package_revenue0
  { cost := package_cost
    revenue := package_revenue
    profit := package_revenue - package_cost }

/-- `DataManager._validate_pricing_structure`: all required top-level
tier keys must be present. -/
def _validate_pricing_structure (data : PricingData) : Bool :=
  (dictGet data "VIP").isSome && (dictGet data "Normal").isSome &&
    (dictGet data "Custom").isSome

/-- `DataManager.import_pricing_config`: the argument is the outcome of
`json.loads` on the input string (none when the string is not valid JSON,
in which case the JSONDecodeError is caught and False returned).  On a
structurally valid parse the state is replaced, otherwise the prior
pricing state is retained and False returned. -/
def import_pricing_config (pricing_data : PricingData)
    (parsed : Option PricingData) : Bool × PricingData :=
  match parsed with
  | none => (false, pricing_data)
  | some data =>
      if _validate_pricing_structure data then (true, data)
      else (false, pricing_data)

/-! ## Subscription aggregation (calculator.py) -/

/-- One (type, duration) combination as produced by
`DataManager.get_subscription_combinations`. -/
structure Combo where
  type : String
  duration : ℕ
  key : String
  display_name : String
deriving DecidableEq

/-- `DataManager.get_subscription_combinations()`: the cross product of
SUBSCRIPTION_TYPES = ['VIP', 'Normal', 'Custom'] and
SUBSCRIPTION_DURATIONS = [1, 3], with the f-string keys and display
names written out. -/
def get_subscription_combinations : List Combo :=
  [⟨"VIP", 1, "VIP_1_month", "VIP - 1 Month"⟩,
   ⟨"VIP", 3, "VIP_3_months", "VIP - 3 Months"⟩,
   ⟨"Normal", 1, "Normal_1_month", "Normal - 1 Month"⟩,
   ⟨"Normal", 3, "Normal_3_months", "Normal - 3 Months"⟩,
   ⟨"Custom", 1, "Custom_1_month", "Custom - 1 Month"⟩,
   ⟨"Custom", 3, "Custom_3_months", "Custom - 3 Months"⟩]

/-- One per-subscription input record: `{customers: int, renewals: int}`. -/
structure SubInput where
  customers : ℤ
  renewals : ℤ
deriving DecidableEq

/-- The subscription-keyed part of DataManager.inputs (the scalar
ancillary-service inputs are modelled separately where needed). -/
def SubInputs := List (String × SubInput)

/-- AppConfig.DEFAULT_INPUTS, subscription entries. -/
def DEFAULT_SUB_INPUTS : SubInputs :=
  [("VIP_1_month", ⟨30, 10⟩), ("VIP_3_months", ⟨20, 5⟩),
   ("Normal_1_month", ⟨60, 40⟩), ("Normal_3_months", ⟨90, 80⟩),
   ("Custom_1_month", ⟨30, 25⟩), ("Custom_3_months", ⟨50, 40⟩)]

/-- One row of `RevenueCalculator._calculate_subscription_results`. -/
structure SubRow where
  type : String
  duration : ℕ
  customers : ℤ
  renewals : ℤ
  cost_per_customer : ℚ
  revenue_per_customer : ℚ
  total_cost : ℚ
  total_revenue : ℚ
  total_profit : ℚ
  profit_margin : ℚ
  renewal_revenue : ℚ
deriving DecidableEq

/-- The loop body of `_calculate_subscription_results` for one
combination: reads customers and renewals (default 0), skips the
combination when customers is not positive, otherwise builds the result
row.  Note that the profit margin guard tests the pre-renewal revenue
`total_revenue` while the recorded revenue and the margin denominator
include `renewal_revenue`. -/
def subRowFor (pricing_data : PricingData) (inputs : SubInputs) (combo : Combo) :
    Option (String × SubRow) :=
  let customers := ((dictGet inputs combo.key).getD ⟨0, 0⟩).customers
  let renewals := ((dictGet inputs combo.key).getD ⟨0, 0⟩).renewals
  if customers > 0 then
    let package_data := calculate_package_cost pricing_data combo.type combo.duration
    let total_cost := package_data.cost * customers
    let total_revenue := package_data.revenue * customers
    let renewal_revenue : ℚ := (renewals : ℚ) * (if combo.duration = 1 then 1500 else 4500)
    some (combo.display_name,
      { type := combo.type
        duration := combo.duration
        customers := customers
        renewals := renewals
        cost_per_customer := package_data.cost
        revenue_per_customer := package_data.revenue
        total_cost := total_cost
        total_revenue := total_revenue + renewal_revenue
        total_profit := (total_revenue + renewal_revenue) - total_cost
        profit_margin :=
          if total_revenue > 0 then
            ((total_revenue + renewal_revenue) - total_cost) / (total_revenue + renewal_revenue) * 100
          else 0
        renewal_revenue := renewal_revenue })
  else none

/-- `RevenueCalculator._calculate_subscription_results()`:
one row per combination with a positive customer count, keyed by the
display name. -/
def _calculate_subscription_results (pricing_data : PricingData)
    (inputs : SubInputs) : List (String × SubRow) :=
  get_subscription_combinations.filterMap (subRowFor pricing_data inputs)

/-- One additional-service summary row (`{cost, revenue, profit}`). -/
structure ServiceRow where
  cost : ℚ
  revenue : ℚ
  profit : ℚ
deriving DecidableEq

/-- The totals record of `RevenueCalculator._calculate_totals`. -/
structure Totals where
  total_cost : ℚ
  total_revenue : ℚ
  total_profit : ℚ
  profit_margin : ℚ
  total_customers : ℤ
  revenue_per_customer : ℚ
  cost_per_customer : ℚ
  profit_per_customer : ℚ
deriving DecidableEq

/-- `RevenueCalculator._calculate_totals(subscription_results,
additional_results)`: sums the subscription rows and the service rows,
with every per-unit ratio guarded by a positivity test on its
denominator. -/
def _calculate_totals (subscription_results : List (String × SubRow))
    (additional_results : List (String × ServiceRow)) : Totals :=
  let total_cost :=
    (subscription_results.map (fun p => p.2.total_cost)).sum +
      (additional_results.map (fun p => p.2.cost)).sum
  let total_revenue :=
    (subscription_results.map (fun p => p.2.total_revenue)).sum +
      (additional_results.map (fun p => p.2.revenue)).sum
  let total_customers :=
    (subscription_results.map (fun p => p.2.customers)).sum
  let total_profit := total_revenue - total_cost
  { total_cost := total_cost
    total_revenue := total_revenue
    total_profit := total_profit
    profit_margin := if total_revenue > 0 then total_profit / total_revenue * 100 else 0
    total_customers := total_customers
    revenue_per_customer :=
      if total_customers > 0 then total_revenue / (total_customers : ℚ) else 0
    cost_per_customer :=
      if total_customers > 0 then total_cost / (total_customers : ℚ) else 0
    profit_per_customer :=
      if total_customers > 0 then total_profit / (total_customers : ℚ) else 0 }

/-! ## Forecasting (forecaster.py) -/

/-- One scenario parameter set (growth_rate, retention_rate). -/
structure ScenarioParams where
  growth_rate : ℚ
  retention_rate : ℚ
deriving DecidableEq

/-- AppConfig.GROWTH_SCENARIOS, in dictionary order. -/
def GROWTH_SCENARIOS : List (String × ScenarioParams) :=
  [("Conservative", ⟨1/20, 17/20⟩), ("Moderate", ⟨3/20, 9/10⟩),
   ("Aggressive", ⟨3/10, 19/20⟩), ("Optimistic", ⟨1/2, 49/50⟩)]

/-- Python `int(x)` on a float: truncation toward zero. -/
def pyInt (q : ℚ) : ℤ := if 0 ≤ q then ⌊q⌋ else ⌈q⌉

/-- Python float division `a / b`: raises ZeroDivisionError when the
denominator is zero. -/
def pydiv (a b : ℚ) : Option ℚ := if b = 0 then none else some (a / b)

/-- `Forecaster._get_seasonality_factor`: the fixed 12-entry calendar
table, addressed by `((month - 1) % 12) + 1`, default 1.0 (unreachable
for in-range indices). -/
def seasonality_map (m : ℕ) : ℚ :=
  if m = 1 then 9/10 else if m = 2 then 19/20 else if m = 3 then 11/10 else
  if m = 4 then 1 else if m = 5 then 1 else if m = 6 then 21/20 else
  if m = 7 then 19/20 else if m = 8 then 9/10 else if m = 9 then 11/10 else
  if m = 10 then 21/20 else if m = 11 then 23/20 else if m = 12 then 6/5 else 1

/-- See `seasonality_map`. -/
def _get_seasonality_factor (month : ℕ) : ℚ :=
  seasonality_map (((month - 1) % 12) + 1)

/-- One row of the forecast monthly breakdown. -/
structure MonthlyRow where
  month : ℕ
  customers : ℤ
  new_customers : ℤ
  monthly_revenue : ℚ
  monthly_cost : ℚ
  monthly_profit : ℚ
  cumulative_revenue : ℚ
  cumulative_cost : ℚ
  cumulative_profit : ℚ
  profit_margin : ℚ
deriving DecidableEq

/-- The mutable loop state of `_calculate_period_forecast`. -/
structure LoopState where
  current_customers : ℚ
  cumulative_revenue : ℚ
  cumulative_cost : ℚ
  cumulative_profit : ℚ
  rows : List MonthlyRow
deriving DecidableEq

/-- The loop-invariant parameters of `_calculate_period_forecast`. -/
structure ForecastParams where
  base_monthly_revenue : ℚ
  base_monthly_cost : ℚ
  base_customers : ℚ
  growth_rate : ℚ
  retention_rate : ℚ
deriving DecidableEq

/-- One iteration of the `for month in range(1, months + 1)` loop of
`_calculate_period_forecast`.  The cumulative sums are updated with the
pre-seasonality monthly figures; the seasonality multiplier is applied
afterwards, to the recorded monthly figures only.  The division by
`base_customers` is unguarded in the source, hence Option-valued. -/
def stepMonth (p : ForecastParams) (month : ℕ) (st : LoopState) : Option LoopState := do
  let new_customers := st.current_customers * p.growth_rate / 12
  let retained_customers := st.current_customers * p.retention_rate
  let current_customers := retained_customers + new_customers
  let customer_growth_factor ← pydiv current_customers p.base_customers
  let monthly_revenue := p.base_monthly_revenue * customer_growth_factor
  let monthly_cost := p.base_monthly_cost * customer_growth_factor
  let monthly_profit := monthly_revenue - monthly_cost
  let cumulative_revenue := st.cumulative_revenue + monthly_revenue
  let cumulative_cost := st.cumulative_cost + monthly_cost
  let cumulative_profit := st.cumulative_profit + monthly_profit
  let seasonality_factor := _get_seasonality_factor month
  let monthly_revenue2 := monthly_revenue * seasonality_factor
  let monthly_cost2 := monthly_cost * seasonality_factor
  let monthly_profit2 := monthly_revenue2 - monthly_cost2
  some { current_customers := current_customers
         cumulative_revenue := cumulative_revenue
         cumulative_cost := cumulative_cost
         cumulative_profit := cumulative_profit
         rows := st.rows ++
           [{ month := month
              customers := pyInt current_customers
              new_customers := pyInt new_customers
              monthly_revenue := monthly_revenue2
              monthly_cost := monthly_cost2
              monthly_profit := monthly_profit2
              cumulative_revenue := cumulative_revenue
              cumulative_cost := cumulative_cost
              cumulative_profit := cumulative_profit
              profit_margin :=
                if monthly_revenue2 > 0 then monthly_profit2 / monthly_revenue2 * 100
                else 0 }] }

/-- The loop of `_calculate_period_forecast` after the first n months
(months are processed in order 1, 2, ..., n). -/
def runMonths (p : ForecastParams) : ℕ → Option LoopState
  | 0 => some { current_customers := p.base_customers
                cumulative_revenue := 0
                cumulative_cost := 0
                cumulative_profit := 0
                rows := [] }
  | n + 1 => do
      let st ← runMonths p n
      stepMonth p (n + 1) st

/-- The period_totals record of a forecast result. -/
structure ForecastPeriodTotals where
  total_revenue : ℚ
  total_cost : ℚ
  total_profit : ℚ
  final_customers : ℤ
  customer_growth : ℚ
  profit_margin : ℚ
deriving DecidableEq

/-- The result record of `_calculate_period_forecast`. -/
structure ForecastResult where
  period_months : ℕ
  monthly_breakdown : List MonthlyRow
  period_totals : ForecastPeriodTotals
deriving DecidableEq

/-- The loop parameters derived from the baseline totals and scenario:
monthly base figures are the quarterly totals divided by 3, baseline
customers the integer total customer count. -/
def paramsOf (base : Totals) (scen : ScenarioParams) : ForecastParams :=
  { base_monthly_revenue := base.total_revenue / 3
    base_monthly_cost := base.total_cost / 3
    base_customers := (base.total_customers : ℚ)
    growth_rate := scen.growth_rate
    retention_rate := scen.retention_rate }

/-- `Forecaster._calculate_period_forecast(base_results, scenario_params,
months)` on the path without pricing/quantity adjustments (the adjusted
path only recomputes the baseline totals fed to the same loop).  none
models a raised exception. -/
def _calculate_period_forecast (base : Totals) (scen : ScenarioParams)
    (months : ℕ) : Option ForecastResult := do
  let p := paramsOf base scen
  let st ← runMonths p months
  some { period_months := months
         monthly_breakdown := st.rows
         period_totals :=
           { total_revenue := st.cumulative_revenue
             total_cost := st.cumulative_cost
             total_profit := st.cumulative_profit
             final_customers := pyInt st.current_customers
             customer_growth :=
               if p.base_customers > 0 then
                 (st.current_customers - p.base_customers) / p.base_customers * 100
               else 0
             profit_margin :=
               if st.cumulative_revenue > 0 then
                 st.cumulative_profit / st.cumulative_revenue * 100
               else 0 } }

/-! ## Break-even analysis (forecaster.py) -/

/-- A Python float that may be the IEEE infinity `float('inf')` (the
only non-finite value these code paths produce).  Finite values are
rationals. -/
inductive PyVal
  | val (q : ℚ)
  | infinite
deriving DecidableEq

/-- `x > c` for such a value against a finite number. -/
def pyValGtQ : PyVal → ℚ → Bool
  | .infinite, _ => true
  | .val a, b => a > b

/-- `c >= x` for a finite number against such a value. -/
def qGePyVal (c : ℚ) : PyVal → Bool
  | .infinite => false
  | .val b => c ≥ b

/-- `x / c` for such a value by a finite number: ZeroDivisionError on a
zero denominator.  The infinite case is modelled for the nonnegative
denominators (customer counts, log of a number above 1) these code paths
pass. -/
def pyValDivByQ (a : PyVal) (c : ℚ) : Option PyVal :=
  if c = 0 then none
  else match a with
    | .val q => some (.val (q / c))
    | .infinite => some .infinite

/-- `np.log` on such a value: log of infinity is infinity; on finite
arguments the real logarithm is modelled by the abstract oracle passed
in (the claims settled here never evaluate it). -/
def pyValLog (logOracle : ℚ → ℚ) : PyVal → PyVal
  | .infinite => .infinite
  | .val q => .val (logOracle q)

/-- The recorded break_even_customers value:
`int(x) if x != float('inf') else 'N/A'`. -/
inductive BreakEvenCustomersOut
  | count (n : ℤ)
  | notApplicable
deriving DecidableEq

/-- The recorded months_to_break_even value:
`x if x != float('inf') else 'Never'`. -/
inductive MonthsOut
  | months (q : ℚ)
  | never
deriving DecidableEq

/-- One row of `calculate_break_even_analysis`. -/
structure BreakEvenRow where
  break_even_customers : BreakEvenCustomersOut
  current_customers : ℤ
  months_to_break_even : MonthsOut
  monthly_growth_rate : ℚ
  avg_profit_per_customer : ℚ
deriving DecidableEq

/-- The body of the scenario loop of
`Forecaster.calculate_break_even_analysis`. -/
def break_even_for_scenario (logOracle : ℚ → ℚ) (fixed_costs : ℚ)
    (base : Totals) (sp : ScenarioParams) : Option BreakEvenRow := do
  let avg_profit_per_customer := base.profit_per_customer
  let break_even_customers : PyVal :=
    if avg_profit_per_customer > 0 then .val (fixed_costs / avg_profit_per_customer)
    else .infinite
  let current_customers := base.total_customers
  let monthly_growth_rate := sp.growth_rate / 12
  let months_to_break_even ←
    if monthly_growth_rate > 0 ∧ pyValGtQ break_even_customers (current_customers : ℚ) = true then do
      let ratio ← pyValDivByQ break_even_customers (current_customers : ℚ)
      pyValDivByQ (pyValLog logOracle ratio) (logOracle (1 + monthly_growth_rate))
    else
      pure (if qGePyVal (current_customers : ℚ) break_even_customers then PyVal.val 0
            else PyVal.infinite)
  pure { break_even_customers :=
           match break_even_customers with
           | .val q => .count (pyInt q)
           | .infinite => .notApplicable
         current_customers := current_customers
         months_to_break_even :=
           match months_to_break_even with
           | .val q => .months q
           | .infinite => .never
         monthly_growth_rate := monthly_growth_rate * 100
         avg_profit_per_customer := avg_profit_per_customer }

/-- The `for scenario_name, scenario_params in self.scenarios.items()`
loop of `calculate_break_even_analysis`, accumulating one row per
scenario and aborting when an iteration raises. -/
def mapScenarioRows (f : String × ScenarioParams → Option (String × BreakEvenRow)) :
    List (String × ScenarioParams) → Option (List (String × BreakEvenRow))
  | [] => some []
  | s :: rest => do
      let r ← f s
      let rs ← mapScenarioRows f rest
      pure (r :: rs)

/-- `Forecaster.calculate_break_even_analysis(fixed_costs)` applied to a
given baseline totals record: one row per scenario of
AppConfig.GROWTH_SCENARIOS; none models a raised exception. -/
def calculate_break_even_analysis (logOracle : ℚ → ℚ) (fixed_costs : ℚ)
    (base : Totals) : Option (List (String × BreakEvenRow)) :=
  mapScenarioRows
    (fun sp => (break_even_for_scenario logOracle fixed_costs base sp.2).map (fun r => (sp.1, r)))
    GROWTH_SCENARIOS

/-! ## Scenario analysis input mutation (calculator.py) -/

/-- Heap model of the nested Python dicts inside DataManager.inputs:
the top-level dict maps subscription keys to the addresses of the
nested `{customers, renewals}` dict objects; `dict.copy()` copies the
top-level mapping but shares the addressed nested objects. -/
structure InputsHeap where
  top : List (String × ℕ)
  heap : List (ℕ × SubInput)
deriving DecidableEq

/-- Write the nested dict object at one address. -/
def heapUpdate (heap : List (ℕ × SubInput)) (a : ℕ) (e : SubInput) :
    List (ℕ × SubInput) :=
  heap.map fun p => if p.1 = a then (a, e) else p

/-- Read the nested dict object at one address. -/
def heapGet (heap : List (ℕ × SubInput)) (a : ℕ) : Option SubInput :=
  match heap with
  | [] => none
  | (a', e) :: rest => if a' = a then some e else heapGet rest a

/-- The `for key, value in temp_inputs.items()` loop of
`calculate_scenario_analysis`: every nested dict object reachable from
the (shallow-copied) top-level mapping is mutated in place with the
truncated multiplied counts. -/
def applyMultipliers (cm rm : ℚ) (st : InputsHeap) : InputsHeap :=
  { st with
    heap := st.top.foldl (fun h ka =>
      match heapGet h ka.2 with
      | some e => heapUpdate h ka.2 ⟨pyInt ((e.customers : ℚ) * cm), pyInt ((e.renewals : ℚ) * rm)⟩
      | none => h) st.heap }

/-- The effect of one scenario iteration of
`RevenueCalculator.calculate_scenario_analysis` on DataManager.inputs:
`original_inputs = inputs.copy()` and `temp_inputs = original_inputs.copy()`
are shallow copies sharing the nested dict objects; the loop mutates
those shared objects; the final `inputs = original_inputs` restores only
the top-level mapping. -/
def calculate_scenario_analysis_inputs (st : InputsHeap) (cm rm : ℚ) : InputsHeap :=
  let original_top := st.top
  let st1 := applyMultipliers cm rm st
  { top := original_top, heap := st1.heap }

/-- The observable value of the inputs dict: each key with the current
value of its nested dict object. -/
def viewInputs (st : InputsHeap) : List (String × Option SubInput) :=
  st.top.map fun ka => (ka.1, heapGet st.heap ka.2)

/-- AppConfig.DEFAULT_INPUTS as a heap state (each subscription key
owning a distinct nested dict object). -/
def defaultInputsHeap : InputsHeap :=
  { top := [("VIP_1_month", 0), ("VIP_3_months", 1), ("Normal_1_month", 2),
            ("Normal_3_months", 3), ("Custom_1_month", 4), ("Custom_3_months", 5)]
    heap := [(0, ⟨30, 10⟩), (1, ⟨20, 5⟩), (2, ⟨60, 40⟩), (3, ⟨90, 80⟩),
             (4, ⟨30, 25⟩), (5, ⟨50, 40⟩)] }

/-! ## Closed forms for the forecast loop -/

/-- The floating-point customer count after m loop iterations: the
recursion `current = current * retention + current * growth / 12`,
carried on the untruncated value. -/
def custAfter (p : ForecastParams) : ℕ → ℚ
  | 0 => p.base_customers
  | n + 1 => custAfter p n * p.retention_rate + custAfter p n * p.growth_rate / 12

/-- The pre-seasonality monthly revenue of month m: base monthly revenue
times the customer growth factor. -/
def preRevenue (p : ForecastParams) (m : ℕ) : ℚ :=
  p.base_monthly_revenue * (custAfter p m / p.base_customers)

/-- The pre-seasonality monthly cost of month m. -/
def preCost (p : ForecastParams) (m : ℕ) : ℚ :=
  p.base_monthly_cost * (custAfter p m / p.base_customers)

/-- Running sum of the pre-seasonality monthly revenues of months 1..n. -/
def cumPreRevenue (p : ForecastParams) : ℕ → ℚ
  | 0 => 0
  | n + 1 => cumPreRevenue p n + preRevenue p (n + 1)

/-- Running sum of the pre-seasonality monthly costs of months 1..n. -/
def cumPreCost (p : ForecastParams) : ℕ → ℚ
  | 0 => 0
  | n + 1 => cumPreCost p n + preCost p (n + 1)

/-- Running sum of the pre-seasonality monthly profits of months 1..n. -/
def cumPreProfit (p : ForecastParams) : ℕ → ℚ
  | 0 => 0
  | n + 1 => cumPreProfit p n + (preRevenue p (n + 1) - preCost p (n + 1))

/-- Closed form of the monthly breakdown row of month m (for m ≥ 1). -/
def rowSpec (p : ForecastParams) (m : ℕ) : MonthlyRow :=
  let mr := preRevenue p m * _get_seasonality_factor m
  let mc := preCost p m * _get_seasonality_factor m
  { month := m
    customers := pyInt (custAfter p m)
    new_customers := pyInt (custAfter p (m - 1) * p.growth_rate / 12)
    monthly_revenue := mr
    monthly_cost := mc
    monthly_profit := mr - mc
    cumulative_revenue := cumPreRevenue p m
    cumulative_cost := cumPreCost p m
    cumulative_profit := cumPreProfit p m
    profit_margin := if mr > 0 then (mr - mc) / mr * 100 else 0 }

/-- When the baseline customer count is nonzero, the forecast loop never
raises and its state after n months has the closed form built from
`custAfter` and the pre-seasonality running sums. -/
theorem runMonths_eq (p : ForecastParams) (hb : p.base_customers ≠ 0) (n : ℕ) :
    runMonths p n =
      some { current_customers := custAfter p n
             cumulative_revenue := cumPreRevenue p n
             cumulative_cost := cumPreCost p n
             cumulative_profit := cumPreProfit p n
             rows := (List.range' 1 n).map (rowSpec p) } := by
  induction n with
  | zero =>
      simp [runMonths, custAfter, cumPreRevenue, cumPreCost, cumPreProfit]
  | succ n ih =>
      rw [runMonths, ih]
      simp only [Option.bind_eq_bind, Option.some_bind, stepMonth, pydiv, hb, if_false,
        List.range'_concat, one_mul, Nat.add_comm 1 n]
      simp only [custAfter, cumPreRevenue, cumPreCost, cumPreProfit, preRevenue, preCost,
        rowSpec, List.map_append, List.map_cons, List.map_nil, Nat.add_sub_cancel]

/-- The running revenue sum equals the list sum over months 1..n. -/
theorem cumPreRevenue_eq_sum (p : ForecastParams) (n : ℕ) :
    cumPreRevenue p n = ((List.range' 1 n).map (preRevenue p)).sum := by
  induction n with
  | zero => simp [cumPreRevenue]
  | succ n ih =>
      rw [cumPreRevenue, ih, List.range'_concat]
      simp [Nat.add_comm 1 n]

/-- The running cost sum equals the list sum over months 1..n. -/
theorem cumPreCost_eq_sum (p : ForecastParams) (n : ℕ) :
    cumPreCost p n = ((List.range' 1 n).map (preCost p)).sum := by
  induction n with
  | zero => simp [cumPreCost]
  | succ n ih =>
      rw [cumPreCost, ih, List.range'_concat]
      simp [Nat.add_comm 1 n]

/-- The running profit sum equals the list sum over months 1..n. -/
theorem cumPreProfit_eq_sum (p : ForecastParams) (n : ℕ) :
    cumPreProfit p n = ((List.range' 1 n).map (fun k => preRevenue p k - preCost p k)).sum := by
  induction n with
  | zero => simp [cumPreProfit]
  | succ n ih =>
      rw [cumPreProfit, ih, List.range'_concat]
      simp [Nat.add_comm 1 n]

/-- The baseline customer cast is nonzero when the integer count is. -/
theorem paramsOf_base_ne_zero (base : Totals) (scen : ScenarioParams)
    (hb : base.total_customers ≠ 0) : (paramsOf base scen).base_customers ≠ 0 := by
  simpa [paramsOf] using Int.cast_ne_zero.mpr hb

/-- Test baseline for the concrete forecast claims: quarterly revenue
300000, cost 200000, 100 customers (per-customer fields as
`_calculate_totals` would derive them). -/
def testBase : Totals :=
  { total_cost := 200000
    total_revenue := 300000
    total_profit := 100000
    profit_margin := 100/3
    total_customers := 100
    revenue_per_customer := 3000
    cost_per_customer := 2000
    profit_per_customer := 1000 }

/-- A zero-growth, full-retention scenario. -/
def zeroGrowthScen : ScenarioParams := ⟨0, 1⟩

/-- A baseline with zero customers, as `_calculate_totals` produces for
an empty business (all per-customer ratios guarded to 0). -/
def zeroCustBase : Totals :=
  { total_cost := 200000
    total_revenue := 300000
    total_profit := 100000
    profit_margin := 100/3
    total_customers := 0
    revenue_per_customer := 0
    cost_per_customer := 0
    profit_per_customer := 0 }

example :
    (_calculate_period_forecast testBase zeroGrowthScen 1).map
        (fun fc => fc.monthly_breakdown.map
          (fun r => (r.cumulative_revenue, r.monthly_revenue, r.monthly_cost, r.monthly_profit)))
      = some [(100000, 90000, 60000, 30000)] := by
  norm_num [_calculate_period_forecast, paramsOf, runMonths, stepMonth, pydiv,
    _get_seasonality_factor, seasonality_map, pyInt, testBase, zeroGrowthScen]

/-- Claim C1, as stated, is false: the code adds the monthly figures to
the cumulative sums *before* applying the seasonality multiplier, so at
the test baseline (monthly revenue 100000, seasonality 0.90 in month 1)
the month-1 cumulative revenue is 100000 while the recorded (seasonality
adjusted) monthly revenue — and hence the sum of recorded monthly
revenues over months 1..1 — is 90000. -/
theorem C1_counterexample :
    (_calculate_period_forecast testBase zeroGrowthScen 1).map
        (fun fc => fc.monthly_breakdown.map
          (fun r => (r.cumulative_revenue, r.monthly_revenue)))
      = some [(100000, 90000)] ∧ (100000 : ℚ) ≠ (90000 : ℚ) := by
  constructor
  · norm_num [_calculate_period_forecast, paramsOf, runMonths, stepMonth, pydiv,
      _get_seasonality_factor, seasonality_map, pyInt, testBase, zeroGrowthScen]
  · norm_num

/-- Claim C1 (corrected): for every baseline with a nonzero customer
count, scenario and horizon, the cumulative revenue/cost/profit recorded
at month M are the running sums over months 1..M of the *pre-seasonality*
monthly figures (base monthly value times the growth factor), while the
recorded monthly_revenue of month M is the pre-seasonality value times
the seasonality factor of M.  The cumulative fields are therefore running
sums of the monthly figures before, not after, seasonality adjustment. -/
theorem C1_cumulative_running_sums (base : Totals) (scen : ScenarioParams) (months : ℕ)
    (hb : base.total_customers ≠ 0) :
    (_calculate_period_forecast base scen months).map
        (fun fc => fc.monthly_breakdown.map
          (fun r => (r.cumulative_revenue, r.cumulative_cost, r.cumulative_profit,
                     r.monthly_revenue)))
      = some ((List.range' 1 months).map (fun m =>
          (((List.range' 1 m).map (preRevenue (paramsOf base scen))).sum,
           ((List.range' 1 m).map (preCost (paramsOf base scen))).sum,
           ((List.range' 1 m).map
             (fun k => preRevenue (paramsOf base scen) k - preCost (paramsOf base scen) k)).sum,
           preRevenue (paramsOf base scen) m * _get_seasonality_factor m))) := by
  have hb' := paramsOf_base_ne_zero base scen hb
  simp only [_calculate_period_forecast, runMonths_eq _ hb', Option.bind_eq_bind,
    Option.some_bind, Option.map_some', List.map_map]
  have hfun : ((fun r : MonthlyRow => (r.cumulative_revenue, r.cumulative_cost,
        r.cumulative_profit, r.monthly_revenue)) ∘ rowSpec (paramsOf base scen))
      = (fun m => (((List.range' 1 m).map (preRevenue (paramsOf base scen))).sum,
          ((List.range' 1 m).map (preCost (paramsOf base scen))).sum,
          ((List.range' 1 m).map (fun k => preRevenue (paramsOf base scen) k
            - preCost (paramsOf base scen) k)).sum,
          preRevenue (paramsOf base scen) m * _get_seasonality_factor m)) := by
    funext m
    simp [rowSpec, Function.comp, cumPreRevenue_eq_sum, cumPreCost_eq_sum,
      cumPreProfit_eq_sum]
  rw [hfun]

/-- Witness for C1 at the concrete test baseline. -/
theorem C1_witness :
    testBase.total_customers ≠ 0 ∧
    (_calculate_period_forecast testBase zeroGrowthScen 1).map
        (fun fc => fc.monthly_breakdown.map
          (fun r => (r.cumulative_revenue, r.cumulative_cost, r.cumulative_profit,
                     r.monthly_revenue)))
      = some ((List.range' 1 1).map (fun m =>
          (((List.range' 1 m).map (preRevenue (paramsOf testBase zeroGrowthScen))).sum,
           ((List.range' 1 m).map (preCost (paramsOf testBase zeroGrowthScen))).sum,
           ((List.range' 1 m).map
             (fun k => preRevenue (paramsOf testBase zeroGrowthScen) k
               - preCost (paramsOf testBase zeroGrowthScen) k)).sum,
           preRevenue (paramsOf testBase zeroGrowthScen) m * _get_seasonality_factor m))) :=
  ⟨by decide, C1_cumulative_running_sums testBase zeroGrowthScen 1 (by decide)⟩

/-- Claim C2 fails on the code: with a zero-customer baseline and any
scenario, the first loop iteration evaluates
`current_customers / base_customers` with both sides zero and raises
ZeroDivisionError (modelled as none) instead of completing normally. -/
theorem C2_zero_baseline_raises (scen : ScenarioParams) :
    _calculate_period_forecast zeroCustBase scen 1 = none := by
  simp [_calculate_period_forecast, paramsOf, runMonths, stepMonth, pydiv, zeroCustBase]

/-- Claim C4: at the test baseline (quarterly revenue 300000, cost
200000, positive customers), zero growth, full retention and a 1-month
horizon, month 1 records monthly_revenue 100000 x 0.90 = 90000,
monthly_cost 66666.67 x 0.90 = 60000 and monthly_profit 30000. -/
theorem C4_concrete_month1 :
    (_calculate_period_forecast testBase zeroGrowthScen 1).map
        (fun fc => fc.monthly_breakdown.map
          (fun r => (r.monthly_revenue, r.monthly_cost, r.monthly_profit)))
      = some [(90000, 60000, 30000)] := by
  norm_num [_calculate_period_forecast, paramsOf, runMonths, stepMonth, pydiv,
    _get_seasonality_factor, seasonality_map, pyInt, testBase, zeroGrowthScen]

/-- Claim C10: in every recorded monthly row the customers and
new_customers fields are the truncations toward zero (Python `int()`) of
the untruncated floating-point customer values, final_customers is the
truncation of the final untruncated count, and the month-to-month
recursion itself continues with the untruncated value `custAfter`. -/
theorem C10_truncated_customer_fields (base : Totals) (scen : ScenarioParams) (months : ℕ)
    (hb : base.total_customers ≠ 0) :
    ((_calculate_period_forecast base scen months).map
        (fun fc => (fc.monthly_breakdown.map (fun r => (r.customers, r.new_customers)),
                    fc.period_totals.final_customers))
      = some ((List.range' 1 months).map (fun m =>
            (pyInt (custAfter (paramsOf base scen) m),
             pyInt (custAfter (paramsOf base scen) (m - 1) * scen.growth_rate / 12))),
          pyInt (custAfter (paramsOf base scen) months)))
    ∧ ∀ m : ℕ, custAfter (paramsOf base scen) (m + 1)
        = custAfter (paramsOf base scen) m * scen.retention_rate
          + custAfter (paramsOf base scen) m * scen.growth_rate / 12 := by
  constructor
  · have hb' := paramsOf_base_ne_zero base scen hb
    simp only [_calculate_period_forecast, runMonths_eq _ hb', Option.bind_eq_bind,
      Option.some_bind, Option.map_some', List.map_map]
    have hfun : ((fun r : MonthlyRow => (r.customers, r.new_customers))
          ∘ rowSpec (paramsOf base scen))
        = (fun m => (pyInt (custAfter (paramsOf base scen) m),
            pyInt (custAfter (paramsOf base scen) (m - 1) * scen.growth_rate / 12))) := by
      funext m
      simp [rowSpec, Function.comp, paramsOf]
    rw [hfun]
  · intro m
    rfl

/-- Witness for C10 at the Conservative scenario and the test baseline
(the month-1 untruncated count is 85 + 5/12, recorded as 85). -/
theorem C10_witness :
    testBase.total_customers ≠ 0 ∧
    ((_calculate_period_forecast testBase ⟨1/20, 17/20⟩ 1).map
        (fun fc => (fc.monthly_breakdown.map (fun r => (r.customers, r.new_customers)),
                    fc.period_totals.final_customers))
      = some ((List.range' 1 1).map (fun m =>
            (pyInt (custAfter (paramsOf testBase ⟨1/20, 17/20⟩) m),
             pyInt (custAfter (paramsOf testBase ⟨1/20, 17/20⟩) (m - 1) * (1/20 : ℚ) / 12))),
          pyInt (custAfter (paramsOf testBase ⟨1/20, 17/20⟩) 1)))
    ∧ ∀ m : ℕ, custAfter (paramsOf testBase ⟨1/20, 17/20⟩) (m + 1)
        = custAfter (paramsOf testBase ⟨1/20, 17/20⟩) m * (17/20 : ℚ)
          + custAfter (paramsOf testBase ⟨1/20, 17/20⟩) m * (1/20 : ℚ) / 12 :=
  ⟨by decide, C10_truncated_customer_fields testBase ⟨1/20, 17/20⟩ 1 (by decide)⟩

/-- Claim C6: for every pricing state, tier and duration, the package
profit equals revenue minus cost exactly; cost and revenue are the sums
of the duration-specific named price components; and the flat
digitalProfit amount enters revenue (and only revenue) exactly for
non-Custom tiers.  The operation is a pure function of the pricing data. -/
theorem C6_package_cost_structure (pricing_data : PricingData) (sub_type : String)
    (duration : ℕ) :
    (calculate_package_cost pricing_data sub_type duration).profit
        = (calculate_package_cost pricing_data sub_type duration).revenue
          - (calculate_package_cost pricing_data sub_type duration).cost
    ∧ (calculate_package_cost pricing_data sub_type duration).cost
        = (if duration = 1 then
            entryCost ((dictGet pricing_data sub_type).getD emptyTier).mealsPerMonth
              + entryCost ((dictGet pricing_data sub_type).getD emptyTier).deliveryPerMonth
          else
            entryCost ((dictGet pricing_data sub_type).getD emptyTier).meals3Months
              + entryCost ((dictGet pricing_data sub_type).getD emptyTier).delivery3Months)
          + entryCost ((dictGet pricing_data sub_type).getD emptyTier).bracelet
          + entryCost ((dictGet pricing_data sub_type).getD emptyTier).pointsX10
    ∧ (calculate_package_cost pricing_data sub_type duration).revenue
        = (if duration = 1 then
            entrySelling ((dictGet pricing_data sub_type).getD emptyTier).mealsPerMonth
              + entrySelling ((dictGet pricing_data sub_type).getD emptyTier).deliveryPerMonth
          else
            entrySelling ((dictGet pricing_data sub_type).getD emptyTier).meals3Months
              + entrySelling ((dictGet pricing_data sub_type).getD emptyTier).delivery3Months)
          + entrySelling ((dictGet pricing_data sub_type).getD emptyTier).bracelet
          + entrySelling ((dictGet pricing_data sub_type).getD emptyTier).pointsX10
          + (if sub_type = "Custom" then 0
             else ((dictGet pricing_data sub_type).getD emptyTier).digitalProfit) := by
  refine ⟨rfl, ?_, ?_⟩
  · simp only [calculate_package_cost]
    split <;> ring
  · simp only [calculate_package_cost, ne_eq, ite_not]
    split <;> split <;> ring

/-- A parsed document missing the Custom tier key. -/
def missingCustomDoc : PricingData := [("VIP", emptyTier), ("Normal", emptyTier)]

/-- Claim C8: when the input string is not valid JSON (parse outcome
none) or parses to a mapping missing one of the required top-level tier
keys VIP, Normal, Custom, the import returns False and the pricing state
is unchanged. -/
theorem C8_import_atomic (pricing_data : PricingData) (parsed : Option PricingData)
    (h : parsed = none ∨ ∃ d, parsed = some d ∧
      (dictGet d "VIP" = none ∨ dictGet d "Normal" = none ∨ dictGet d "Custom" = none)) :
    import_pricing_config pricing_data parsed = (false, pricing_data) := by
  rcases h with rfl | ⟨d, rfl, hmiss⟩
  · rfl
  · simp only [import_pricing_config, _validate_pricing_structure]
    rcases hmiss with h | h | h <;> simp [h]

/-- Witness for C8: importing a document with only VIP and Normal keys
over the default pricing state is rejected and leaves the state intact. -/
theorem C8_witness :
    ((some missingCustomDoc = (none : Option PricingData)) ∨ ∃ d, some missingCustomDoc = some d ∧
      (dictGet d "VIP" = none ∨ dictGet d "Normal" = none ∨ dictGet d "Custom" = none)) ∧
    import_pricing_config DEFAULT_PRICING (some missingCustomDoc) = (false, DEFAULT_PRICING) :=
  ⟨Or.inr ⟨missingCustomDoc, rfl, Or.inr (Or.inr rfl)⟩,
   C8_import_atomic DEFAULT_PRICING (some missingCustomDoc)
     (Or.inr ⟨missingCustomDoc, rfl, Or.inr (Or.inr rfl)⟩)⟩

/-- The customer count the subscription loop reads for a combination. -/
def comboCustomers (inputs : SubInputs) (c : Combo) : ℤ :=
  ((dictGet inputs c.key).getD ⟨0, 0⟩).customers

/-- A produced entry is keyed by the display name of its combination. -/
theorem subRowFor_fst {pricing_data : PricingData} {inputs : SubInputs} {c : Combo}
    {v : String × SubRow} (h : subRowFor pricing_data inputs c = some v) :
    v.1 = c.display_name := by
  by_cases hcust : ((dictGet inputs c.key).getD ⟨0, 0⟩).customers > 0
  · simp only [subRowFor] at h
    rw [if_pos hcust] at h
    injection h with h2
    subst h2
    rfl
  · simp only [subRowFor] at h
    rw [if_neg hcust] at h
    exact Option.noConfusion h

/-- The loop emits an entry for a combination iff its customer count is
positive. -/
theorem subRowFor_isSome_iff {pricing_data : PricingData} {inputs : SubInputs} {c : Combo} :
    (subRowFor pricing_data inputs c).isSome ↔ comboCustomers inputs c > 0 := by
  unfold comboCustomers
  by_cases hcust : ((dictGet inputs c.key).getD ⟨0, 0⟩).customers > 0
  · simp only [subRowFor]
    rw [if_pos hcust]
    simpa using hcust
  · simp only [subRowFor]
    rw [if_neg hcust]
    simpa using hcust

/-- If every combination carrying the looked-up display name has a
non-positive customer count, the name is absent from the produced rows. -/
theorem lookup_subRows_eq_none (pricing_data : PricingData) (inputs : SubInputs)
    (name : String) :
    ∀ combos : List Combo,
      (∀ c' ∈ combos, c'.display_name = name → comboCustomers inputs c' ≤ 0) →
      dictGet (combos.filterMap (subRowFor pricing_data inputs)) name = none := by
  intro combos
  induction combos with
  | nil => intro _; rfl
  | cons a as ih =>
      intro h
      simp only [List.filterMap_cons]
      cases hrow : subRowFor pricing_data inputs a with
      | none => exact ih fun c' hm => h c' (List.mem_cons_of_mem a hm)
      | some v =>
          have hpos : comboCustomers inputs a > 0 :=
            (@subRowFor_isSome_iff pricing_data inputs a).mp (by simp [hrow])
          have hne : v.1 ≠ name := by
            rw [subRowFor_fst hrow]
            intro heq
            exact absurd hpos (not_lt.mpr (h a (List.mem_cons_self a as) heq))
          obtain ⟨k, row⟩ := v
          show (if k = name then some row else
            dictGet (as.filterMap (subRowFor pricing_data inputs)) name) = none
          rw [if_neg hne]
          exact ih fun c' hm => h c' (List.mem_cons_of_mem a hm)

/-- A combination with a positive customer count always has an entry
under its display name in the produced rows. -/
theorem lookup_subRows_isSome (pricing_data : PricingData) (inputs : SubInputs)
    (c : Combo) :
    ∀ combos : List Combo, c ∈ combos → comboCustomers inputs c > 0 →
      (dictGet (combos.filterMap (subRowFor pricing_data inputs)) c.display_name).isSome := by
  intro combos
  induction combos with
  | nil => intro h; cases h
  | cons a as ih =>
      intro hmem hpos
      simp only [List.filterMap_cons]
      cases hrow : subRowFor pricing_data inputs a with
      | none =>
          rcases List.mem_cons.mp hmem with rfl | hmem'
          · exact absurd ((@subRowFor_isSome_iff pricing_data inputs c).mpr hpos)
              (by simp [hrow])
          · exact ih hmem' hpos
      | some v =>
          obtain ⟨k, row⟩ := v
          by_cases hk : k = c.display_name
          · show (if k = c.display_name then some row else
              dictGet (as.filterMap (subRowFor pricing_data inputs)) c.display_name).isSome
            rw [if_pos hk]
            rfl
          · show (if k = c.display_name then some row else
              dictGet (as.filterMap (subRowFor pricing_data inputs)) c.display_name).isSome
            rw [if_neg hk]
            rcases List.mem_cons.mp hmem with rfl | hmem'
            · exact absurd (subRowFor_fst hrow) hk
            · exact ih hmem' hpos

/-- The six display names are pairwise distinct across combinations. -/
theorem combos_display_name_inj :
    ∀ x ∈ get_subscription_combinations, ∀ y ∈ get_subscription_combinations,
      x.display_name = y.display_name → x = y := by decide

/-- Claim C9: a (tier, duration) combination whose customer count is 0
is absent from the subscriptions mapping, and every combination with a
positive customer count is present. -/
theorem C9_zero_customer_combos (pricing_data : PricingData) (inputs : SubInputs)
    (c : Combo) (hc : c ∈ get_subscription_combinations) :
    (comboCustomers inputs c = 0 →
      dictGet (_calculate_subscription_results pricing_data inputs) c.display_name = none)
    ∧ (comboCustomers inputs c > 0 →
      (dictGet (_calculate_subscription_results pricing_data inputs) c.display_name).isSome) := by
  constructor
  · intro h0
    apply lookup_subRows_eq_none
    intro c' hmem heq
    rw [combos_display_name_inj c' hmem c hc heq, h0]
  · intro hpos
    exact lookup_subRows_isSome pricing_data inputs c get_subscription_combinations hc hpos

/-- Inputs where only the VIP 1-month combination has customers. -/
def witnessInputs : SubInputs := [("VIP_1_month", ⟨30, 10⟩)]

/-- Witness for C9: with only VIP 1-month populated, the Custom 3-month
combination (count 0) is absent and the VIP 1-month combination (count
30) is present. -/
theorem C9_witness :
    (⟨"Custom", 3, "Custom_3_months", "Custom - 3 Months"⟩ : Combo)
        ∈ get_subscription_combinations ∧
    comboCustomers witnessInputs ⟨"Custom", 3, "Custom_3_months", "Custom - 3 Months"⟩ = 0 ∧
    dictGet (_calculate_subscription_results DEFAULT_PRICING witnessInputs)
        "Custom - 3 Months" = none ∧
    (⟨"VIP", 1, "VIP_1_month", "VIP - 1 Month"⟩ : Combo) ∈ get_subscription_combinations ∧
    comboCustomers witnessInputs ⟨"VIP", 1, "VIP_1_month", "VIP - 1 Month"⟩ > 0 ∧
    (dictGet (_calculate_subscription_results DEFAULT_PRICING witnessInputs)
        "VIP - 1 Month").isSome :=
  ⟨by decide, by decide,
   (C9_zero_customer_combos DEFAULT_PRICING witnessInputs
     ⟨"Custom", 3, "Custom_3_months", "Custom - 3 Months"⟩ (by decide)).1 (by decide),
   by decide, by decide,
   (C9_zero_customer_combos DEFAULT_PRICING witnessInputs
     ⟨"VIP", 1, "VIP_1_month", "VIP - 1 Month"⟩ (by decide)).2 (by decide)⟩

/-- A successful dict lookup comes from an entry of the list. -/
theorem dictGet_mem {α : Type} {l : List (String × α)} {k : String} {v : α}
    (h : dictGet l k = some v) : (k, v) ∈ l := by
  induction l with
  | nil => exact Option.noConfusion h
  | cons p rest ih =>
      obtain ⟨k', v'⟩ := p
      by_cases hk : k' = k
      · subst hk
        simp only [dictGet, if_pos] at h
        injection h with h2
        subst h2
        exact List.mem_cons_self _ _
      · simp only [dictGet, if_neg hk] at h
        exact List.mem_cons_of_mem _ (ih h)

/-- The margin guard of a produced subscription row tests the
pre-renewal revenue (row revenue minus renewal revenue). -/
theorem subRowFor_margin {pricing_data : PricingData} {inputs : SubInputs} {c : Combo}
    {v : String × SubRow} (h : subRowFor pricing_data inputs c = some v) :
    (v.2.total_revenue - v.2.renewal_revenue > 0 →
       v.2.profit_margin = (v.2.total_revenue - v.2.total_cost) / v.2.total_revenue * 100)
    ∧ (¬ v.2.total_revenue - v.2.renewal_revenue > 0 → v.2.profit_margin = 0) := by
  by_cases hcust : ((dictGet inputs c.key).getD ⟨0, 0⟩).customers > 0
  · simp only [subRowFor] at h
    rw [if_pos hcust] at h
    injection h with h2
    subst h2
    dsimp only
    constructor
    · intro hpos
      rw [add_sub_cancel_right] at hpos
      rw [if_pos hpos]
    · intro hneg
      rw [add_sub_cancel_right] at hneg
      rw [if_neg hneg]
  · simp only [subRowFor] at h
    rw [if_neg hcust] at h
    exact Option.noConfusion h

/-- Every row recorded by the forecast loop carries the guarded margin. -/
theorem runMonths_rows_margin (p : ForecastParams) :
    ∀ (n : ℕ) (st' : LoopState), runMonths p n = some st' →
      ∀ r ∈ st'.rows,
        (r.monthly_revenue > 0 → r.profit_margin = r.monthly_profit / r.monthly_revenue * 100)
        ∧ (¬ r.monthly_revenue > 0 → r.profit_margin = 0) := by
  intro n
  induction n with
  | zero =>
      intro st' h r hr
      simp only [runMonths] at h
      injection h with h2
      subst h2
      simp at hr
  | succ n ih =>
      intro st' h r hr
      simp only [runMonths, Option.bind_eq_bind] at h
      cases hprev : runMonths p n with
      | none => rw [hprev] at h; exact Option.noConfusion h
      | some st0 =>
          rw [hprev] at h
          simp only [Option.some_bind] at h
          by_cases hbc : p.base_customers = 0
          · simp [stepMonth, pydiv, hbc] at h
          · simp only [stepMonth, pydiv, if_neg hbc, Option.bind_eq_bind,
              Option.some_bind] at h
            injection h with h2
            subst h2
            rw [List.mem_append] at hr
            rcases hr with hr | hr
            · exact ih st0 hprev r hr
            · rw [List.mem_singleton] at hr
              subst hr
              dsimp only
              constructor
              · intro hpos
                rw [if_pos hpos]
              · intro hneg
                rw [if_neg hneg]

/-- Claim C5 (corrected): the margin is the (revenue - cost)/revenue
formula exactly when the guard quantity of the respective computation is
positive, and 0 otherwise.  For a subscription row the guard quantity is
the pre-renewal revenue (row revenue minus renewal revenue), not the
recorded row revenue; for the overall totals, the forecast monthly rows
and the forecast period summary it is the recorded revenue itself. -/
theorem C5_margin_guard :
    (∀ (pricing_data : PricingData) (inputs : SubInputs) (name : String) (row : SubRow),
       dictGet (_calculate_subscription_results pricing_data inputs) name = some row →
       (row.total_revenue - row.renewal_revenue > 0 →
          row.profit_margin = (row.total_revenue - row.total_cost) / row.total_revenue * 100)
       ∧ (¬ row.total_revenue - row.renewal_revenue > 0 → row.profit_margin = 0))
    ∧ (∀ (subs : List (String × SubRow)) (services : List (String × ServiceRow)),
       ((_calculate_totals subs services).total_revenue > 0 →
          (_calculate_totals subs services).profit_margin
            = ((_calculate_totals subs services).total_revenue
                - (_calculate_totals subs services).total_cost)
              / (_calculate_totals subs services).total_revenue * 100)
       ∧ (¬ (_calculate_totals subs services).total_revenue > 0 →
          (_calculate_totals subs services).profit_margin = 0))
    ∧ (∀ (base : Totals) (scen : ScenarioParams) (months : ℕ) (fc : ForecastResult),
       _calculate_period_forecast base scen months = some fc →
       (∀ r ∈ fc.monthly_breakdown,
          (r.monthly_revenue > 0 →
             r.profit_margin = r.monthly_profit / r.monthly_revenue * 100)
          ∧ (¬ r.monthly_revenue > 0 → r.profit_margin = 0))
       ∧ ((fc.period_totals.total_revenue > 0 →
             fc.period_totals.profit_margin
               = fc.period_totals.total_profit / fc.period_totals.total_revenue * 100)
          ∧ (¬ fc.period_totals.total_revenue > 0 → fc.period_totals.profit_margin = 0))) := by
  refine ⟨?_, ?_, ?_⟩
  · intro pricing_data inputs name row h
    obtain ⟨c, _, hrow⟩ := List.mem_filterMap.mp (dictGet_mem h)
    exact @subRowFor_margin pricing_data inputs c (name, row) hrow
  · intro subs services
    dsimp only [_calculate_totals]
    constructor
    · intro hpos
      rw [if_pos hpos]
    · intro hneg
      rw [if_neg hneg]
  · intro base scen months fc h
    simp only [_calculate_period_forecast, Option.bind_eq_bind] at h
    cases hrun : runMonths (paramsOf base scen) months with
    | none => rw [hrun] at h; exact Option.noConfusion h
    | some st =>
        rw [hrun] at h
        simp only [Option.some_bind] at h
        injection h with h2
        subst h2
        constructor
        · exact runMonths_rows_margin (paramsOf base scen) months st hrun
        · dsimp only
          constructor
          · intro hpos
            rw [if_pos hpos]
          · intro hneg
            rw [if_neg hneg]

/-- A pricing state whose three tiers are all empty dictionaries (a
structurally valid configuration that the import accepts: all required
keys present, every component price defaulting to 0). -/
def zeroPricingAllTiers : PricingData :=
  [("VIP", emptyTier), ("Normal", emptyTier), ("Custom", emptyTier)]

/-- Inputs with one VIP 1-month customer and one renewal. -/
def ceInputs : SubInputs := [("VIP_1_month", ⟨1, 1⟩)]

/-- The subscription row produced for that input under the all-zero
pricing: revenue is pure renewal revenue 1500, yet the recorded margin
is 0 because the guard tested the pre-renewal revenue 0. -/
def ceRow : SubRow :=
  { type := "VIP"
    duration := 1
    customers := 1
    renewals := 1
    cost_per_customer := 0
    revenue_per_customer := 0
    total_cost := 0
    total_revenue := 1500
    total_profit := 1500
    profit_margin := 0
    renewal_revenue := 1500 }

/-- Claim C5, as stated, is false: under the all-zero pricing with one
VIP 1-month customer and one renewal, the produced row has nonzero
revenue 1500 and zero cost, so the claimed formula gives margin 100,
but the recorded margin is 0 (the guard tests the pre-renewal revenue,
which is 0). -/
theorem C5_counterexample :
    ¬ (∀ (name : String) (row : SubRow),
        dictGet (_calculate_subscription_results zeroPricingAllTiers ceInputs) name
            = some row →
        (row.total_revenue ≠ 0 →
           row.profit_margin = (row.total_revenue - row.total_cost) / row.total_revenue * 100)
        ∧ (row.total_revenue = 0 → row.profit_margin = 0)) := by
  intro hclaim
  have hrow : dictGet (_calculate_subscription_results zeroPricingAllTiers ceInputs)
      "VIP - 1 Month" = some ceRow := by
    norm_num +decide [_calculate_subscription_results, get_subscription_combinations,
      subRowFor, dictGet, calculate_package_cost, entryCost, entrySelling, emptyTier,
      zeroPricingAllTiers, ceInputs, ceRow]
  have h1 := (hclaim "VIP - 1 Month" ceRow hrow).1 (by norm_num [ceRow])
  norm_num [ceRow] at h1

/-- The subscription row produced for the default VIP 1-month pricing
and 30 customers, 10 renewals. -/
def vipRowW : SubRow :=
  { type := "VIP"
    duration := 1
    customers := 30
    renewals := 10
    cost_per_customer := 1815
    revenue_per_customer := 3250
    total_cost := 54450
    total_revenue := 112500
    total_profit := 58050
    profit_margin := 258/5
    renewal_revenue := 15000 }

/-- Witness for C5 at the default VIP pricing: the pre-renewal revenue
is positive and the recorded margin equals the formula. -/
theorem C5_witness :
    dictGet (_calculate_subscription_results DEFAULT_PRICING witnessInputs) "VIP - 1 Month"
        = some vipRowW ∧
    vipRowW.total_revenue - vipRowW.renewal_revenue > 0 ∧
    vipRowW.profit_margin
      = (vipRowW.total_revenue - vipRowW.total_cost) / vipRowW.total_revenue * 100 := by
  have hrow : dictGet (_calculate_subscription_results DEFAULT_PRICING witnessInputs)
      "VIP - 1 Month" = some vipRowW := by
    norm_num +decide [_calculate_subscription_results, get_subscription_combinations,
      subRowFor, dictGet, calculate_package_cost, entryCost, entrySelling, emptyTier,
      DEFAULT_PRICING, vipDefaultTier, normalDefaultTier, customDefaultTier,
      witnessInputs, vipRowW]
  exact ⟨hrow, by norm_num [vipRowW],
    (C5_margin_guard.1 DEFAULT_PRICING witnessInputs "VIP - 1 Month" vipRowW hrow).1
      (by norm_num [vipRowW])⟩

/-- A baseline totals record with zero customers, as `_calculate_totals`
yields for empty inputs (all guarded ratios 0). -/
def zeroTotalsBase : Totals := ⟨0, 0, 0, 0, 0, 0, 0, 0⟩

/-- Claim C7 fails on the code: with a zero-customer baseline (so
avg_profit_per_customer is 0), break_even_customers becomes float
infinity, the months computation evaluates `inf / current_customers`
with current_customers = 0, and the call raises ZeroDivisionError
(modelled as none) for every log oracle and every fixed_costs value —
instead of returning the 'N/A' sentinel row. -/
theorem C7_zero_customers_raises (logOracle : ℚ → ℚ) (fixed_costs : ℚ) :
    calculate_break_even_analysis logOracle fixed_costs zeroTotalsBase = none := by
  have hrow : break_even_for_scenario logOracle fixed_costs zeroTotalsBase ⟨1/20, 17/20⟩
      = none := by
    simp only [break_even_for_scenario, zeroTotalsBase]
    norm_num [pyValGtQ, pyValDivByQ]
  simp only [calculate_break_even_analysis, GROWTH_SCENARIOS, mapScenarioRows, hrow,
    Option.map_none', Option.bind_eq_bind, Option.none_bind]

/-- Claim C3 fails on the code: `dict.copy()` is shallow, so the
scenario loop of `calculate_scenario_analysis` mutates the nested
per-subscription dicts shared with the saved original; after the
restore, the top-level mapping is back but the nested customer counts
keep the scenario multiplier (here 2x: VIP 1-month customers 30 -> 60). -/
theorem C3_nested_inputs_not_restored :
    dictGet (viewInputs (calculate_scenario_analysis_inputs defaultInputsHeap 2 1))
        "VIP_1_month" = some (some ⟨60, 10⟩) ∧
    dictGet (viewInputs defaultInputsHeap) "VIP_1_month" = some (some ⟨30, 10⟩) ∧
    viewInputs (calculate_scenario_analysis_inputs defaultInputsHeap 2 1)
      ≠ viewInputs defaultInputsHeap := by
  have h1 : dictGet (viewInputs (calculate_scenario_analysis_inputs defaultInputsHeap 2 1))
      "VIP_1_month" = some (some ⟨60, 10⟩) := by
    norm_num +decide [calculate_scenario_analysis_inputs, applyMultipliers, heapUpdate,
      heapGet, viewInputs, dictGet, defaultInputsHeap, pyInt]
  have h2 : dictGet (viewInputs defaultInputsHeap) "VIP_1_month" = some (some ⟨30, 10⟩) := by
    decide
  refine ⟨h1, h2, fun heq => ?_⟩
  rw [heq] at h1
  exact absurd (h2.symm.trans h1) (by decide)
